import Mathlib

/-
Verification development for the bluefairy relay service.

Shallow embedding of the core components:
  - app/services/openclaw.py   (OpenClawService: SSE streaming client)
  - app/services/sessions.py   (SessionService: user to upstream-session mapping)
  - app/services/conversations.py and app/repositories/conversations.py
                               (conversation archive)
  - app/api/endpoints/ws.py    (websocket relay endpoint)

Decoded JSON values and Python truthiness are modelled by the PyVal type;
the json.loads library call is abstracted as an input (an Option PyVal
decode result accompanying each raw payload), since it is not code of this
repository.  External stores (redis, the relational database) are modelled
as explicit state values threaded through the functions that use them.
-/

/-- Model of a decoded Python JSON value (result of json.loads). -/
inductive PyVal : Type
  | none
  | bool (b : Bool)
  | int (n : Int)
  | str (s : String)
  | list (xs : List PyVal)
  | dict (fields : List (String × PyVal))

/-- Python str.strip with no argument: remove leading and trailing
whitespace characters. -/
def pyStrip (s : String) : String :=
  String.mk (((s.data.dropWhile Char.isWhitespace).reverse.dropWhile
    Char.isWhitespace).reverse)

/-- Python slicing s[n:] on a string (character based). -/
def pyDrop (s : String) (n : Nat) : String :=
  String.mk (s.data.drop n)

/-- Python str.startswith. -/
def pyStartsWith (s p : String) : Bool :=
  p.data.isPrefixOf s.data

/-- Python truthiness of a PyVal (bool(v)). -/
def pyTruthy : PyVal → Bool
  | .none => false
  | .bool b => b
  | .int n => n != 0
  | .str s => !(s == "")
  | .list xs => !xs.isEmpty
  | .dict fs => !fs.isEmpty

/-- Python dict.get with an explicit default: first binding of the key, else the default. -/
def pyGetD (fs : List (String × PyVal)) (k : String) (d : PyVal) : PyVal :=
  match fs.find? (fun p => p.1 == k) with
  | some p => p.2
  | Option.none => d

/-- Python dict.get with the implicit None default. -/
def pyGet (fs : List (String × PyVal)) (k : String) : PyVal :=
  pyGetD fs k .none

/-- Python or on two values: first operand if truthy, else second. -/
def pyOr (a b : PyVal) : PyVal :=
  if pyTruthy a then a else b

/-- Test whether a PyVal is a given string (the Python comparison v == s for a string literal s). -/
def PyVal.isStr (v : PyVal) (s : String) : Bool :=
  match v with
  | .str t => t == s
  | _ => false

/-! ## OpenClawService (app/services/openclaw.py)

The streaming client send_message: iterates SSE lines of the upstream
response; for each line starting with the data marker it strips the marker
and surrounding whitespace, skips empty payloads, and otherwise decodes
and extracts text fragments.  Each raw line is paired with the decode
oracle for its stripped payload (none models a json.JSONDecodeError). -/

/-- Fragment extraction from one decoded SSE data payload, mirroring the
body of the line loop of OpenClawService.send_message after json.loads:
on decode failure (none) the raw payload is yielded; on a dict the value
of the or-chain over text, content, chunk is yielded when truthy; on a
plain string the string is yielded; other values yield nothing. -/
def processPayload (dataStr : String) (decoded : Option PyVal) : List PyVal :=
  match decoded with
  | Option.none => [.str dataStr]
  | Option.some data =>
    match data with
    | .dict fs =>
      let text := pyOr (pyGet fs "text")
        (pyOr (pyGet fs "content") (pyOr (pyGet fs "chunk") (.str "")))
      if pyTruthy text then [text] else []
    | .str s => [.str s]
    | _ => []

/-- Processing of one SSE line by OpenClawService.send_message: non-data
lines are skipped; the data marker is stripped and the payload trimmed;
an empty payload is skipped; otherwise the payload is decoded and
fragments extracted. -/
def processLine (line : String) (decoded : Option PyVal) : List PyVal :=
  if pyStartsWith line "data:" then
    let dataStr := pyStrip (pyDrop line 5)
    if dataStr == "" then [] else processPayload dataStr decoded
  else []

/-- An upstream HTTP response as seen by send_message: status code and the
SSE lines, each paired with the decode oracle of its stripped payload. -/
structure UpstreamResponse : Type where
  status : Nat
  lines : List (String × Option PyVal)

/-- Outcome of OpenClawService.send_message: either OpenClawAPIException
raised before any yield (carrying the non-success status code in its
message, the f-string OpenClaw returned status), or the full list of
yielded fragments. -/
inductive SendOutcome : Type
  | raised (statusCode : Nat)
  | stream (fragments : List PyVal)

/-- Model of OpenClawService.send_message over a given upstream response:
a non-200 status raises before any fragment; otherwise every line is
processed in order. -/
def send_message (resp : UpstreamResponse) : SendOutcome :=
  if resp.status ≠ 200 then .raised resp.status
  else .stream (resp.lines.flatMap (fun p => processLine p.1 p.2))

/-- OpenClawService.create_session_key: deterministic per-user key. -/
def create_session_key (user_id : String) : String :=
  "bluefairy:" ++ user_id

/-! ## SessionService (app/services/sessions.py)

The redis store backing the user to upstream-session mapping is modelled
as an association of keys to (value, absolute expiry time) pairs; `now`
is the current time in seconds.  setex stores a value with an expiry of
now + ttl, replacing any previous entry for the key; get returns the
value only while unexpired.  The empty byte string is falsy in Python, so
the service treats a stored empty value like a miss. -/

/-- Expiring key-value store state (the redis database). -/
structure KVStore : Type where
  entries : List (String × String × Nat)

/-- Redis GET at time now: the stored value if present and unexpired. -/
def kvGet (st : KVStore) (now : Nat) (k : String) : Option String :=
  match st.entries.find? (fun e => e.1 == k) with
  | some e => if now < e.2.2 then some e.2.1 else none
  | none => none

/-- Redis SETEX at time now: store value with expiry now + ttl, replacing
any previous entry for the key. -/
def kvSetex (st : KVStore) (now : Nat) (k : String) (ttl : Nat) (v : String) : KVStore :=
  ⟨(k, v, now + ttl) :: st.entries.filter (fun e => !(e.1 == k))⟩

/-- Absolute expiry time recorded for a key (0 when absent). -/
def kvExpiry (st : KVStore) (k : String) : Nat :=
  match st.entries.find? (fun e => e.1 == k) with
  | some e => e.2.2
  | none => 0

/-- SESSION_TTL_SECONDS from app/services/sessions.py: 30 days. -/
def SESSION_TTL_SECONDS : Nat := 60 * 60 * 24 * 30

/-- SessionService._redis_key: the namespaced redis key for a user
(the REDIS_KEY_PREFIX constant of the source followed by a colon). -/
def redis_key (user_id : String) : String :=
  "openclaw_session:" ++ user_id

/-- SessionService.get_or_create_session: return the stored session key
for the user when a truthy value is stored and unexpired; otherwise
derive a fresh key via create_session_key, store it with the 30-day TTL
and return it.  Returns the key together with the updated store. -/
def get_or_create_session (st : KVStore) (now : Nat) (user_id : String) :
    String × KVStore :=
  let fresh := create_session_key user_id
  match kvGet st now (redis_key user_id) with
  | some v =>
    if v == "" then
      (fresh, kvSetex st now (redis_key user_id) SESSION_TTL_SECONDS fresh)
    else (v, st)
  | none =>
    (fresh, kvSetex st now (redis_key user_id) SESSION_TTL_SECONDS fresh)

/-! ## Conversation archive
(app/services/conversations.py, app/repositories/conversations.py)

The relational store is modelled as a list of conversation rows.  The
repository get_by_session_id opens a database session, runs the select
and closes the session, so the row it returns is a detached in-memory
copy: mutating it does not change the store.  Only
BaseRepository.create issues a commit. -/

/-- One role/content entry of a conversation message sequence. -/
structure MsgEntry : Type where
  role : String
  content : String

/-- A row of the conversations table (fields used by the service). -/
structure Conversation : Type where
  user_id : String
  session_id : Option String
  messages : List MsgEntry

/-- Database state: the conversations table. -/
structure ConvDB : Type where
  rows : List Conversation

/-- ConversationRepository.get_by_session_id: select the row whose
session_id matches (scalar_one_or_none; the store holds at most one per
session key).  The returned row is a detached copy; the database state is
unchanged by the call. -/
def get_by_session_id (db : ConvDB) (sid : String) : Option Conversation :=
  db.rows.find? (fun c => c.session_id == some sid)

/-- BaseRepository.create for conversations: add the entity and commit. -/
def repo_create (db : ConvDB) (c : Conversation) : ConvDB :=
  ⟨db.rows ++ [c]⟩

/-- ConversationService.create_conversation: look up by session id; if a
row exists, extend the messages of the detached copy in memory and return
it validated as the response (no update or commit is issued, so the store
is returned unchanged); otherwise create and persist a new row seeded
with the user and assistant entries.  Returns the new database state and
the response row. -/
def create_conversation (db : ConvDB) (user_id session_id user_message assistant_message : String) :
    ConvDB × Conversation :=
  let msgs : List MsgEntry :=
    [⟨"user", user_message⟩, ⟨"assistant", assistant_message⟩]
  match get_by_session_id db session_id with
  | some existing =>
    (db, { existing with messages := existing.messages ++ msgs })
  | none =>
    let conv : Conversation := ⟨user_id, some session_id, msgs⟩
    (repo_create db conv, conv)

/-! ## WebSocket relay (app/api/endpoints/ws.py)

Outbound events are the JSON objects the endpoint sends with send_json.
The four fixed error payloads carry their literal message strings; the
unknown-type error is the f-string Unknown message type followed by the
Python str() of the type value, modelled by carrying that value. -/

/-- Outbound events of the relay (the send_json payloads of ws.py). -/
inductive OutEvent : Type
  | pong
  | chunkEv (content : String)
  | doneEv (fullContent : String)
  | errorEv (message : String)
  | errorUnknownType (msgType : PyVal)

/-- Behaviour of one openclaw_service.send_message generator as consumed
by the relay for one message frame: it yields text chunks and then either
completes, raises OpenClawAPIException, or raises some other exception. -/
inductive UpstreamBehavior : Type
  | yields (chunks : List String)
  | apiErr (pre : List String)
  | otherErr (pre : List String)

/-- One inbound frame together with the environment behaviour it would
meet: the json.loads result of the received text (none models a
JSONDecodeError), the upstream generator behaviour if the frame triggers
streaming, and whether the archive write would succeed if invoked. -/
structure FrameInput : Type where
  decoded : Option PyVal
  upstream : UpstreamBehavior
  archiveOk : Bool

/-- An archive invocation: user_id, session_id, user_message,
assistant_message as passed to create_conversation. -/
def ArchiveCall : Type := String × String × String × String

/-- Observable outcome of handling frames: events sent to the client in
order, send_message invocations (session key and message text), archive
invocations, and whether an uncaught exception escaped the loop (which
tears the connection down). -/
structure StepOut : Type where
  events : List OutEvent
  upstreamCalls : List (String × String)
  archiveCalls : List ArchiveCall
  crashed : Bool

/-- The async-for loop over generator chunks: each chunk is appended to
the accumulated full response and sent as a chunk event. Returns the
events of the loop and the final accumulator. -/
def streamRelay : List String → String → List OutEvent × String
  | [], full => ([], full)
  | c :: cs, full =>
    let r := streamRelay cs (full ++ c)
    (.chunkEv c :: r.1, r.2)

/-- The inner try/except around create_conversation: on an exception only
logger.exception is called; either way no event is sent and the loop
continues. -/
def persistEvents (archiveOk : Bool) : List OutEvent :=
  if archiveOk then [] else []

/-- Handling of a message frame with non-empty stripped content,
mirroring the streaming block of websocket_endpoint: relay every chunk,
then a done event with the accumulated response, then attempt the
archive write (its failure swallowed); an OpenClawAPIException from the
generator is reported as the Failed-to-get-response error, any other
exception as Internal server error, in both cases after the chunk events
already sent and with no archive attempt. -/
def handleMessage (session_key user_id content : String)
    (ub : UpstreamBehavior) (archiveOk : Bool) : StepOut :=
  match ub with
  | .yields chunks =>
    let r := streamRelay chunks ""
    { events := r.1 ++ [.doneEv r.2] ++ persistEvents archiveOk
      upstreamCalls := [(session_key, content)]
      archiveCalls := [(user_id, session_key, content, r.2)]
      crashed := false }
  | .apiErr pre =>
    let r := streamRelay pre ""
    { events := r.1 ++ [.errorEv "Failed to get response from AI"]
      upstreamCalls := [(session_key, content)]
      archiveCalls := []
      crashed := false }
  | .otherErr pre =>
    let r := streamRelay pre ""
    { events := r.1 ++ [.errorEv "Internal server error"]
      upstreamCalls := [(session_key, content)]
      archiveCalls := []
      crashed := false }

/-- Dispatch of one inbound frame by the body of the while loop of
websocket_endpoint: a decode failure is answered with Invalid JSON; on a
dict the type field selects ping, message or the unknown-type error; a
message frame strips the content (default empty string) and answers
whitespace-only content with Empty message; a non-string content or a
non-dict frame raises an AttributeError that no handler catches, so the
loop dies. -/
def handleFrame (session_key user_id : String) (f : FrameInput) : StepOut :=
  match f.decoded with
  | none => { events := [.errorEv "Invalid JSON"], upstreamCalls := [], archiveCalls := [], crashed := false }
  | some msg =>
    match msg with
    | .dict fields =>
      let msgType := pyGet fields "type"
      if msgType.isStr "ping" then
        { events := [.pong], upstreamCalls := [], archiveCalls := [], crashed := false }
      else if msgType.isStr "message" then
        match pyGetD fields "content" (.str "") with
        | .str raw =>
          let content := pyStrip raw
          if content == "" then
            { events := [.errorEv "Empty message"], upstreamCalls := [], archiveCalls := [], crashed := false }
          else handleMessage session_key user_id content f.upstream f.archiveOk
        | _ => { events := [], upstreamCalls := [], archiveCalls := [], crashed := true }
      else
        { events := [.errorUnknownType msgType], upstreamCalls := [], archiveCalls := [], crashed := false }
    | _ => { events := [], upstreamCalls := [], archiveCalls := [], crashed := true }

/-- Sequencing of two step outcomes (the second happens after the first). -/
def StepOut.seq (a b : StepOut) : StepOut :=
  { events := a.events ++ b.events
    upstreamCalls := a.upstreamCalls ++ b.upstreamCalls
    archiveCalls := a.archiveCalls ++ b.archiveCalls
    crashed := b.crashed }

/-- The while loop of websocket_endpoint over a finite inbound frame
sequence: frames are handled strictly in order; an uncaught exception
stops the loop (remaining frames are never read); exhausting the list
models a clean client disconnect. -/
def runConn (session_key user_id : String) : List FrameInput → StepOut
  | [] => { events := [], upstreamCalls := [], archiveCalls := [], crashed := false }
  | f :: rest =>
    let s := handleFrame session_key user_id f
    if s.crashed then s
    else s.seq (runConn session_key user_id rest)

/-! ## Authentication and the endpoint prologue (ws.py) -/

/-- A user row as needed by authentication (str(user.id)). -/
structure UserRec : Type where
  id : String

/-- Environment of AuthService.get_session: the auth redis keyspace and
the users table of UserRepository.get, both modelled as lookups. -/
structure AuthEnv : Type where
  redisGetKey : String → Option String
  userById : String → Option UserRec

/-- AuthService.get_session: look up the session key in redis; a missing
or falsy (empty) value is no session; otherwise fetch the user by the
stored id. -/
def auth_get_session (env : AuthEnv) (session_id : String) : Option UserRec :=
  match env.redisGetKey ("session:" ++ session_id) with
  | none => none
  | some uid => if uid == "" then none else env.userById uid

/-- Connection request inputs: the token query parameter and the
session_token cookie as seen by _authenticate_ws. -/
structure WSConnectReq : Type where
  queryToken : Option String
  cookieToken : Option String

/-- Python falsity of an optional string (absent or empty). -/
def pyFalsyOptStr : Option String → Bool
  | none => true
  | some s => s.isEmpty

/-- Token selection of _authenticate_ws: the query token, with the cookie
as fallback when the query token is absent or empty; none when the
result is still absent or empty. -/
def ws_token (req : WSConnectReq) : Option String :=
  match (if pyFalsyOptStr req.queryToken then req.cookieToken else req.queryToken) with
  | none => none
  | some t => if t == "" then none else some t

/-- Model of _authenticate_ws: resolve the token, validate it against the
session store, and return str(user.id) on success. -/
def authenticate_ws (env : AuthEnv) (req : WSConnectReq) : Option String :=
  match ws_token req with
  | none => none
  | some t =>
    match auth_get_session env t with
    | none => none
    | some u => some u.id

/-- WS_1008_POLICY_VIOLATION closure code. -/
def WS_1008_POLICY_VIOLATION : Nat := 1008

/-- Outcome of one websocket_endpoint invocation: either the connection
is closed before being accepted (no frame ever read, nothing sent), or
it is accepted for a user, the upstream session key is resolved once,
and the frame loop runs. -/
inductive WSOutcome : Type
  | rejected (closeCode : Nat)
  | completed (user_id session_key : String) (out : StepOut)

/-- Model of websocket_endpoint: authenticate before accepting; on
failure close with the policy-violation code and return; on success
resolve the session key once via get_or_create_session and run the
dispatch loop over the inbound frames. -/
def websocket_endpoint (env : AuthEnv) (ocStore : KVStore) (now : Nat)
    (req : WSConnectReq) (frames : List FrameInput) : WSOutcome :=
  match authenticate_ws env req with
  | none => .rejected WS_1008_POLICY_VIOLATION
  | some uid =>
    let sk := (get_or_create_session ocStore now uid).1
    .completed uid sk (runConn sk uid frames)

/-- Events visible to the client for a connection outcome. -/
def WSOutcome.eventsSent : WSOutcome → List OutEvent
  | .rejected _ => []
  | .completed _ _ out => out.events

/-- Upstream invocations of a connection outcome. -/
def WSOutcome.upstreamCallsMade : WSOutcome → List (String × String)
  | .rejected _ => []
  | .completed _ _ out => out.upstreamCalls

/-! ## Helper lemmas -/

/-- Concatenation of a list of strings in order. -/
def concatAll : List String → String
  | [] => ""
  | c :: cs => c ++ concatAll cs

theorem streamRelay_eq (chunks : List String) (full : String) :
    streamRelay chunks full = (chunks.map OutEvent.chunkEv, full ++ concatAll chunks) := by
  induction chunks generalizing full with
  | nil => simp [streamRelay, concatAll]
  | cons c cs ih => simp [streamRelay, concatAll, ih, String.append_assoc]

theorem handleMessage_yields (sk uid content : String) (chunks : List String) (aok : Bool) :
    handleMessage sk uid content (.yields chunks) aok =
      { events := chunks.map OutEvent.chunkEv ++ [.doneEv (concatAll chunks)]
        upstreamCalls := [(sk, content)]
        archiveCalls := [(uid, sk, content, concatAll chunks)]
        crashed := false } := by
  simp [handleMessage, streamRelay_eq, persistEvents]

theorem handleMessage_apiErr (sk uid content : String) (pre : List String) (aok : Bool) :
    handleMessage sk uid content (.apiErr pre) aok =
      { events := pre.map OutEvent.chunkEv ++ [.errorEv "Failed to get response from AI"]
        upstreamCalls := [(sk, content)]
        archiveCalls := []
        crashed := false } := by
  simp [handleMessage, streamRelay_eq]

theorem handleMessage_otherErr (sk uid content : String) (pre : List String) (aok : Bool) :
    handleMessage sk uid content (.otherErr pre) aok =
      { events := pre.map OutEvent.chunkEv ++ [.errorEv "Internal server error"]
        upstreamCalls := [(sk, content)]
        archiveCalls := []
        crashed := false } := by
  simp [handleMessage, streamRelay_eq]

theorem handleFrame_message_eq (sk uid raw : String) (fields : List (String × PyVal))
    (ub : UpstreamBehavior) (aok : Bool)
    (hty : pyGet fields "type" = .str "message")
    (hct : pyGetD fields "content" (.str "") = .str raw)
    (hne : pyStrip raw ≠ "") :
    handleFrame sk uid ⟨some (.dict fields), ub, aok⟩ =
      handleMessage sk uid (pyStrip raw) ub aok := by
  have h1 : (("message" : String) == "ping") = false := by decide
  have hne' : (pyStrip raw == "") = false := by
    simpa using hne
  simp [handleFrame, hty, hct, PyVal.isStr, h1, hne']

theorem handleFrame_message_empty (sk uid raw : String) (fields : List (String × PyVal))
    (ub : UpstreamBehavior) (aok : Bool)
    (hty : pyGet fields "type" = .str "message")
    (hct : pyGetD fields "content" (.str "") = .str raw)
    (hws : pyStrip raw = "") :
    handleFrame sk uid ⟨some (.dict fields), ub, aok⟩ =
      { events := [.errorEv "Empty message"], upstreamCalls := [], archiveCalls := [], crashed := false } := by
  have h1 : (("message" : String) == "ping") = false := by decide
  simp [handleFrame, hty, hct, PyVal.isStr, h1, hws]

theorem handleFrame_unknown_eq (sk uid : String) (fields : List (String × PyVal))
    (ub : UpstreamBehavior) (aok : Bool)
    (hping : (pyGet fields "type").isStr "ping" = false)
    (hmsg : (pyGet fields "type").isStr "message" = false) :
    handleFrame sk uid ⟨some (.dict fields), ub, aok⟩ =
      { events := [.errorUnknownType (pyGet fields "type")]
        upstreamCalls := [], archiveCalls := [], crashed := false } := by
  simp [handleFrame, hping, hmsg]

theorem runConn_cons_of_not_crashed (sk uid : String) (f : FrameInput) (rest : List FrameInput)
    (h : (handleFrame sk uid f).crashed = false) :
    runConn sk uid (f :: rest) = (handleFrame sk uid f).seq (runConn sk uid rest) := by
  simp [runConn, h]

/-! ## Claims -/

/-- C1: for a message frame with non-whitespace content whose upstream
generator yields the fragment list chunks and then completes, the relay
sends one chunk event per fragment, in the order produced, followed by a
single done event whose fullContent is the concatenation of the chunk
contents in order (and nothing else). -/
theorem c1_chunks_in_order_then_done (sk uid raw : String) (fields : List (String × PyVal))
    (chunks : List String) (aok : Bool)
    (hty : pyGet fields "type" = .str "message")
    (hct : pyGetD fields "content" (.str "") = .str raw)
    (hne : pyStrip raw ≠ "") :
    handleFrame sk uid ⟨some (.dict fields), .yields chunks, aok⟩ =
      { events := chunks.map OutEvent.chunkEv ++ [.doneEv (concatAll chunks)]
        upstreamCalls := [(sk, pyStrip raw)]
        archiveCalls := [(uid, sk, pyStrip raw, concatAll chunks)]
        crashed := false } := by
  rw [handleFrame_message_eq sk uid raw fields _ aok hty hct hne, handleMessage_yields]

/-- Witness for C1 at a concrete frame: two fragments Hi and a space-there
produce two chunk events then done with Hi there. -/
theorem c1_witness :
    handleFrame "sk" "u1"
      ⟨some (.dict [("type", .str "message"), ("content", .str " hello ")]),
        .yields ["Hi", " there"], true⟩ =
      { events := [.chunkEv "Hi", .chunkEv " there", .doneEv "Hi there"]
        upstreamCalls := [("sk", "hello")]
        archiveCalls := [("u1", "sk", "hello", "Hi there")]
        crashed := false } :=
  c1_chunks_in_order_then_done "sk" "u1" " hello "
    [("type", .str "message"), ("content", .str " hello ")]
    ["Hi", " there"] true rfl rfl (by decide)

/-- C6: an upstream response with a non-success status makes send_message
raise the typed OpenClawAPIException carrying the status code before any
fragment, and the relay answers such a raise (no fragments yielded) with
exactly one error event, no chunk or done event, and no archive call. -/
theorem c6_upstream_error_single_error_event (resp : UpstreamResponse)
    (sk uid raw : String) (fields : List (String × PyVal)) (aok : Bool)
    (hst : resp.status ≠ 200)
    (hty : pyGet fields "type" = .str "message")
    (hct : pyGetD fields "content" (.str "") = .str raw)
    (hne : pyStrip raw ≠ "") :
    send_message resp = .raised resp.status ∧
    handleFrame sk uid ⟨some (.dict fields), .apiErr [], aok⟩ =
      { events := [.errorEv "Failed to get response from AI"]
        upstreamCalls := [(sk, pyStrip raw)]
        archiveCalls := []
        crashed := false } := by
  constructor
  · simp [send_message, hst]
  · rw [handleFrame_message_eq sk uid raw fields _ aok hty hct hne]
    simp [handleMessage_apiErr]

/-- Witness for C6 at status 500 and a concrete message frame. -/
theorem c6_witness :
    send_message ⟨500, []⟩ = .raised 500 ∧
    handleFrame "sk" "u1"
      ⟨some (.dict [("type", .str "message"), ("content", .str "hi")]), .apiErr [], true⟩ =
      { events := [.errorEv "Failed to get response from AI"]
        upstreamCalls := [("sk", "hi")]
        archiveCalls := []
        crashed := false } :=
  c6_upstream_error_single_error_event ⟨500, []⟩ "sk" "u1" "hi"
    [("type", .str "message"), ("content", .str "hi")] true
    (by decide) rfl rfl (by decide)

/-- C7: when the archive write fails on an otherwise successful exchange
the failure is swallowed: the outcome is identical to the one with a
succeeding archive, the client still gets every chunk followed by done
with the correct fullContent, no error event is emitted, and the loop
goes on to process the remaining frames. -/
theorem c7_archive_failure_swallowed (sk uid raw : String)
    (fields : List (String × PyVal)) (chunks : List String) (rest : List FrameInput)
    (hty : pyGet fields "type" = .str "message")
    (hct : pyGetD fields "content" (.str "") = .str raw)
    (hne : pyStrip raw ≠ "") :
    handleFrame sk uid ⟨some (.dict fields), .yields chunks, false⟩ =
      handleFrame sk uid ⟨some (.dict fields), .yields chunks, true⟩ ∧
    (handleFrame sk uid ⟨some (.dict fields), .yields chunks, false⟩).events =
      chunks.map OutEvent.chunkEv ++ [.doneEv (concatAll chunks)] ∧
    (∀ m, OutEvent.errorEv m ∉
      (handleFrame sk uid ⟨some (.dict fields), .yields chunks, false⟩).events) ∧
    runConn sk uid (⟨some (.dict fields), .yields chunks, false⟩ :: rest) =
      (handleFrame sk uid ⟨some (.dict fields), .yields chunks, false⟩).seq
        (runConn sk uid rest) := by
  have hF : handleFrame sk uid ⟨some (.dict fields), .yields chunks, false⟩ =
      { events := chunks.map OutEvent.chunkEv ++ [.doneEv (concatAll chunks)]
        upstreamCalls := [(sk, pyStrip raw)]
        archiveCalls := [(uid, sk, pyStrip raw, concatAll chunks)]
        crashed := false } := by
    rw [handleFrame_message_eq sk uid raw fields _ false hty hct hne, handleMessage_yields]
  have hT : handleFrame sk uid ⟨some (.dict fields), .yields chunks, true⟩ =
      { events := chunks.map OutEvent.chunkEv ++ [.doneEv (concatAll chunks)]
        upstreamCalls := [(sk, pyStrip raw)]
        archiveCalls := [(uid, sk, pyStrip raw, concatAll chunks)]
        crashed := false } := by
    rw [handleFrame_message_eq sk uid raw fields _ true hty hct hne, handleMessage_yields]
  refine ⟨hF.trans hT.symm, by rw [hF], ?_, ?_⟩
  · intro m
    rw [hF]
    simp
  · exact runConn_cons_of_not_crashed _ _ _ _ (by rw [hF])

/-- Witness for C7: archive failure on a two-fragment exchange still
delivers both chunks and done, emits no error event, and the next frame
(a ping) is still processed. -/
theorem c7_witness :
    handleFrame "sk" "u1"
        ⟨some (.dict [("type", .str "message"), ("content", .str "hello")]),
          .yields ["Hi", " there"], false⟩ =
      handleFrame "sk" "u1"
        ⟨some (.dict [("type", .str "message"), ("content", .str "hello")]),
          .yields ["Hi", " there"], true⟩ ∧
    (handleFrame "sk" "u1"
        ⟨some (.dict [("type", .str "message"), ("content", .str "hello")]),
          .yields ["Hi", " there"], false⟩).events =
      [.chunkEv "Hi", .chunkEv " there", .doneEv "Hi there"] ∧
    OutEvent.errorEv "boom" ∉
      (handleFrame "sk" "u1"
        ⟨some (.dict [("type", .str "message"), ("content", .str "hello")]),
          .yields ["Hi", " there"], false⟩).events ∧
    runConn "sk" "u1"
        (⟨some (.dict [("type", .str "message"), ("content", .str "hello")]),
          .yields ["Hi", " there"], false⟩ ::
         [⟨some (.dict [("type", .str "ping")]), .yields [], true⟩]) =
      (handleFrame "sk" "u1"
        ⟨some (.dict [("type", .str "message"), ("content", .str "hello")]),
          .yields ["Hi", " there"], false⟩).seq
        (runConn "sk" "u1" [⟨some (.dict [("type", .str "ping")]), .yields [], true⟩]) := by
  have h := c7_archive_failure_swallowed "sk" "u1" "hello"
    [("type", .str "message"), ("content", .str "hello")] ["Hi", " there"]
    [⟨some (.dict [("type", .str "ping")]), .yields [], true⟩] rfl rfl (by decide)
  exact ⟨h.1, h.2.1, h.2.2.1 "boom", h.2.2.2⟩

/-- C8: a message frame whose content is empty or whitespace-only is
answered with exactly one Empty-message error event, the upstream client
is not invoked, and the loop keeps processing the remaining frames. -/
theorem c8_empty_message_no_upstream (sk uid raw : String)
    (fields : List (String × PyVal)) (ub : UpstreamBehavior) (aok : Bool)
    (rest : List FrameInput)
    (hty : pyGet fields "type" = .str "message")
    (hct : pyGetD fields "content" (.str "") = .str raw)
    (hws : pyStrip raw = "") :
    handleFrame sk uid ⟨some (.dict fields), ub, aok⟩ =
      { events := [.errorEv "Empty message"]
        upstreamCalls := [], archiveCalls := [], crashed := false } ∧
    runConn sk uid (⟨some (.dict fields), ub, aok⟩ :: rest) =
      { events := .errorEv "Empty message" :: (runConn sk uid rest).events
        upstreamCalls := (runConn sk uid rest).upstreamCalls
        archiveCalls := (runConn sk uid rest).archiveCalls
        crashed := (runConn sk uid rest).crashed } := by
  have hF := handleFrame_message_empty sk uid raw fields ub aok hty hct hws
  refine ⟨hF, ?_⟩
  rw [runConn_cons_of_not_crashed _ _ _ _ (by rw [hF]), hF]
  simp [StepOut.seq]

/-- Witness for C8: three-space content yields one error event, no
upstream call, and a following ping frame is still answered with pong. -/
theorem c8_witness :
    handleFrame "sk" "u1"
      ⟨some (.dict [("type", .str "message"), ("content", .str "   ")]),
        .yields ["x"], true⟩ =
      { events := [.errorEv "Empty message"]
        upstreamCalls := [], archiveCalls := [], crashed := false } ∧
    runConn "sk" "u1"
      (⟨some (.dict [("type", .str "message"), ("content", .str "   ")]), .yields ["x"], true⟩ ::
        [⟨some (.dict [("type", .str "ping")]), .yields [], true⟩]) =
      { events := .errorEv "Empty message" ::
          (runConn "sk" "u1" [⟨some (.dict [("type", .str "ping")]), .yields [], true⟩]).events
        upstreamCalls :=
          (runConn "sk" "u1" [⟨some (.dict [("type", .str "ping")]), .yields [], true⟩]).upstreamCalls
        archiveCalls :=
          (runConn "sk" "u1" [⟨some (.dict [("type", .str "ping")]), .yields [], true⟩]).archiveCalls
        crashed :=
          (runConn "sk" "u1" [⟨some (.dict [("type", .str "ping")]), .yields [], true⟩]).crashed } :=
  c8_empty_message_no_upstream "sk" "u1" "   "
    [("type", .str "message"), ("content", .str "   ")] (.yields ["x"]) true
    [⟨some (.dict [("type", .str "ping")]), .yields [], true⟩] rfl rfl (by decide)

/-- C9: a non-parseable frame is answered with the Invalid-JSON error
event and a parseable dict frame whose type discriminator is neither ping
nor message is answered with an error event naming that unknown kind; in
both cases exactly one event is sent, the connection is not closed, and
the loop keeps processing the remaining frames. -/
theorem c9_malformed_and_unknown_recover (sk uid : String)
    (ub : UpstreamBehavior) (aok : Bool) (rest : List FrameInput)
    (fields : List (String × PyVal))
    (hping : (pyGet fields "type").isStr "ping" = false)
    (hmsg : (pyGet fields "type").isStr "message" = false) :
    runConn sk uid (⟨none, ub, aok⟩ :: rest) =
      { events := .errorEv "Invalid JSON" :: (runConn sk uid rest).events
        upstreamCalls := (runConn sk uid rest).upstreamCalls
        archiveCalls := (runConn sk uid rest).archiveCalls
        crashed := (runConn sk uid rest).crashed } ∧
    runConn sk uid (⟨some (.dict fields), ub, aok⟩ :: rest) =
      { events := .errorUnknownType (pyGet fields "type") :: (runConn sk uid rest).events
        upstreamCalls := (runConn sk uid rest).upstreamCalls
        archiveCalls := (runConn sk uid rest).archiveCalls
        crashed := (runConn sk uid rest).crashed } := by
  have hInv : handleFrame sk uid ⟨none, ub, aok⟩ =
      { events := [.errorEv "Invalid JSON"]
        upstreamCalls := [], archiveCalls := [], crashed := false } := rfl
  have hUnk := handleFrame_unknown_eq sk uid fields ub aok hping hmsg
  constructor
  · rw [runConn_cons_of_not_crashed _ _ _ _ (by rw [hInv]), hInv]
    simp [StepOut.seq]
  · rw [runConn_cons_of_not_crashed _ _ _ _ (by rw [hUnk]), hUnk]
    simp [StepOut.seq]

/-- Witness for C9: a decode failure and a frame of unknown type chat,
each followed by a ping frame that is still processed. -/
theorem c9_witness :
    runConn "sk" "u1"
      (⟨none, .yields [], true⟩ :: [⟨some (.dict [("type", .str "ping")]), .yields [], true⟩]) =
      { events := .errorEv "Invalid JSON" ::
          (runConn "sk" "u1" [⟨some (.dict [("type", .str "ping")]), .yields [], true⟩]).events
        upstreamCalls :=
          (runConn "sk" "u1" [⟨some (.dict [("type", .str "ping")]), .yields [], true⟩]).upstreamCalls
        archiveCalls :=
          (runConn "sk" "u1" [⟨some (.dict [("type", .str "ping")]), .yields [], true⟩]).archiveCalls
        crashed :=
          (runConn "sk" "u1" [⟨some (.dict [("type", .str "ping")]), .yields [], true⟩]).crashed } ∧
    runConn "sk" "u1"
      (⟨some (.dict [("type", .str "chat")]), .yields [], true⟩ ::
        [⟨some (.dict [("type", .str "ping")]), .yields [], true⟩]) =
      { events := .errorUnknownType (pyGet [("type", .str "chat")] "type") ::
          (runConn "sk" "u1" [⟨some (.dict [("type", .str "ping")]), .yields [], true⟩]).events
        upstreamCalls :=
          (runConn "sk" "u1" [⟨some (.dict [("type", .str "ping")]), .yields [], true⟩]).upstreamCalls
        archiveCalls :=
          (runConn "sk" "u1" [⟨some (.dict [("type", .str "ping")]), .yields [], true⟩]).archiveCalls
        crashed :=
          (runConn "sk" "u1" [⟨some (.dict [("type", .str "ping")]), .yields [], true⟩]).crashed } :=
  c9_malformed_and_unknown_recover "sk" "u1" (.yields []) true
    [⟨some (.dict [("type", .str "ping")]), .yields [], true⟩]
    [("type", .str "chat")] (by decide) (by decide)

/-- C10: for a message frame with non-whitespace string content the text
passed to the upstream client and the user message passed to the archive
are the whitespace-stripped content, not the raw frame content. -/
theorem c10_content_is_stripped (sk uid raw : String)
    (fields : List (String × PyVal)) (ub : UpstreamBehavior) (aok : Bool)
    (chunks : List String)
    (hty : pyGet fields "type" = .str "message")
    (hct : pyGetD fields "content" (.str "") = .str raw)
    (hne : pyStrip raw ≠ "") :
    (handleFrame sk uid ⟨some (.dict fields), ub, aok⟩).upstreamCalls =
      [(sk, pyStrip raw)] ∧
    (handleFrame sk uid ⟨some (.dict fields), .yields chunks, aok⟩).archiveCalls =
      [(uid, sk, pyStrip raw, concatAll chunks)] := by
  constructor
  · rw [handleFrame_message_eq sk uid raw fields ub aok hty hct hne]
    cases ub <;>
      simp [handleMessage_yields, handleMessage_apiErr, handleMessage_otherErr]
  · rw [handleFrame_message_eq sk uid raw fields _ aok hty hct hne, handleMessage_yields]

/-- Witness for C10: content with surrounding whitespace reaches the
upstream client and the archive stripped. -/
theorem c10_witness :
    (handleFrame "sk" "u1"
      ⟨some (.dict [("type", .str "message"), ("content", .str "  hi there  ")]),
        .otherErr [], true⟩).upstreamCalls = [("sk", "hi there")] ∧
    (handleFrame "sk" "u1"
      ⟨some (.dict [("type", .str "message"), ("content", .str "  hi there  ")]),
        .yields ["ok"], true⟩).archiveCalls = [("u1", "sk", "hi there", "ok")] :=
  c10_content_is_stripped "sk" "u1" "  hi there  "
    [("type", .str "message"), ("content", .str "  hi there  ")]
    (.otherErr []) true ["ok"] rfl rfl (by decide)

/-! ## C3: extraction rule of the streaming client -/

/-- Python dict.get returning presence (used only to phrase the spec
reading of C3): some value when the key is present. -/
def pyFind (fs : List (String × PyVal)) (k : String) : Option PyVal :=
  (fs.find? (fun p => p.1 == k)).map (fun p => p.2)

/-- Spec-worded extraction for comparison with the code (refinement check
for C3): take the value of the first PRESENT key among text, content,
chunk, and yield it only if that extracted value is non-empty. -/
def specFirstPresentExtract (fs : List (String × PyVal)) : List PyVal :=
  match pyFind fs "text" with
  | some v => if pyTruthy v then [v] else []
  | none =>
    match pyFind fs "content" with
    | some v => if pyTruthy v then [v] else []
    | none =>
      match pyFind fs "chunk" with
      | some v => if pyTruthy v then [v] else []
      | none => []

/-- Counterexample to C3 as stated: on a mapping with an empty text field
and a non-empty content field the first-present rule of the claim yields
nothing, but the code yields the content value, because the or-chain
skips falsy values rather than absent ones. -/
theorem c3_counterexample :
    processPayload "p" (some (.dict [("text", .str ""), ("content", .str "hello")])) =
      [.str "hello"] ∧
    specFirstPresentExtract [("text", .str ""), ("content", .str "hello")] = [] :=
  ⟨rfl, rfl⟩

/-- C3 amended: for a payload decoding to a mapping the client yields the
first truthy (non-empty) value among the fields text, content, chunk, and
nothing when none of them is truthy; a payload decoding to a plain string
is yielded directly; a payload that fails to decode is yielded raw. -/
theorem c3_amended_first_truthy (ds s : String) (fs : List (String × PyVal)) :
    processPayload ds none = [.str ds] ∧
    processPayload ds (some (.str s)) = [.str s] ∧
    processPayload ds (some (.dict fs)) =
      (match List.find? pyTruthy [pyGet fs "text", pyGet fs "content", pyGet fs "chunk"] with
       | some v => [v]
       | none => []) := by
  refine ⟨rfl, rfl, ?_⟩
  have h0 : pyTruthy (.str "") = false := rfl
  cases h1 : pyTruthy (pyGet fs "text") <;>
    cases h2 : pyTruthy (pyGet fs "content") <;>
      cases h3 : pyTruthy (pyGet fs "chunk") <;>
        simp [processPayload, pyOr, List.find?, h1, h2, h3, h0]

/-! ## C4: failed authentication rejects the connection -/

/-- Authentication environment with no sessions and no users. -/
def emptyAuthEnv : AuthEnv :=
  ⟨fun _ => Option.none, fun _ => Option.none⟩

/-- C4: when the token is missing from both the query parameter and the
cookie, or the resolved token does not map to a user, the endpoint closes
with the policy-violation code without accepting; no frame is processed,
no event is sent and the upstream client is never invoked. -/
theorem c4_auth_failure_rejects (env : AuthEnv) (ocStore : KVStore) (now : Nat)
    (req : WSConnectReq) (frames : List FrameInput)
    (h : (req.queryToken = none ∧ req.cookieToken = none) ∨
         (∃ t, ws_token req = some t ∧ auth_get_session env t = none)) :
    websocket_endpoint env ocStore now req frames = .rejected WS_1008_POLICY_VIOLATION ∧
    (websocket_endpoint env ocStore now req frames).eventsSent = [] ∧
    (websocket_endpoint env ocStore now req frames).upstreamCallsMade = [] := by
  have hauth : authenticate_ws env req = none := by
    rcases h with ⟨hq, hc⟩ | ⟨t, ht, hres⟩
    · simp [authenticate_ws, ws_token, hq, hc, pyFalsyOptStr]
    · simp [authenticate_ws, ht, hres]
  have he : websocket_endpoint env ocStore now req frames =
      .rejected WS_1008_POLICY_VIOLATION := by
    simp [websocket_endpoint, hauth]
  refine ⟨he, ?_, ?_⟩
  · rw [he]
    rfl
  · rw [he]
    rfl

/-- Witness for C4: no token anywhere, empty environment. -/
theorem c4_witness :
    websocket_endpoint emptyAuthEnv ⟨[]⟩ 0 ⟨none, none⟩ [] =
      .rejected WS_1008_POLICY_VIOLATION ∧
    (websocket_endpoint emptyAuthEnv ⟨[]⟩ 0 ⟨none, none⟩ []).eventsSent = [] ∧
    (websocket_endpoint emptyAuthEnv ⟨[]⟩ 0 ⟨none, none⟩ []).upstreamCallsMade = [] :=
  c4_auth_failure_rejects emptyAuthEnv ⟨[]⟩ 0 ⟨none, none⟩ [] (Or.inl ⟨rfl, rfl⟩)

/-! ## C5: session resolution is idempotent and deterministic -/

theorem kvGet_setex_self (st : KVStore) (now ttl t : Nat) (k v : String) :
    kvGet (kvSetex st now k ttl v) t k = if t < now + ttl then some v else none := by
  simp [kvGet, kvSetex, List.find?]

theorem kvExpiry_setex_self (st : KVStore) (now ttl : Nat) (k v : String) :
    kvExpiry (kvSetex st now k ttl v) k = now + ttl := by
  simp [kvExpiry, kvSetex, List.find?]

theorem kvGet_before_expiry (st : KVStore) (t₁ t₂ : Nat) (k v : String)
    (hg : kvGet st t₁ k = some v) (ht : t₂ < kvExpiry st k) :
    kvGet st t₂ k = some v := by
  unfold kvGet at hg ⊢
  unfold kvExpiry at ht
  cases hfind : st.entries.find? (fun e => e.1 == k) with
  | none => simp [hfind] at hg
  | some e =>
    simp only [hfind] at hg ht ⊢
    rw [if_pos ht]
    split at hg
    · exact hg
    · simp at hg

/-- C5: a second get_or_create_session call before the expiry of the
mapping stored or found by the first call returns the same session key,
and when no mapping existed the first call returns the key
deterministically derived from the user id (the bluefairy namespace
prefix). -/
theorem c5_idempotent_and_deterministic (st : KVStore) (t₁ t₂ : Nat) (u : String)
    (h : t₂ < kvExpiry (get_or_create_session st t₁ u).2 (redis_key u)) :
    (get_or_create_session (get_or_create_session st t₁ u).2 t₂ u).1 =
      (get_or_create_session st t₁ u).1 ∧
    (kvGet st t₁ (redis_key u) = none →
      (get_or_create_session st t₁ u).1 = "bluefairy:" ++ u) := by
  cases hg : kvGet st t₁ (redis_key u) with
  | none =>
    have hfirst : get_or_create_session st t₁ u =
        (create_session_key u,
          kvSetex st t₁ (redis_key u) SESSION_TTL_SECONDS (create_session_key u)) := by
      simp [get_or_create_session, hg]
    rw [hfirst] at h ⊢
    dsimp only at h ⊢
    rw [kvExpiry_setex_self] at h
    constructor
    · simp [get_or_create_session, kvGet_setex_self, h]
      split <;> rfl
    · intro _; rfl
  | some v =>
    cases hv : (v == "") with
    | true =>
      have hfirst : get_or_create_session st t₁ u =
          (create_session_key u,
            kvSetex st t₁ (redis_key u) SESSION_TTL_SECONDS (create_session_key u)) := by
        simp [get_or_create_session, hg, hv]
      rw [hfirst] at h ⊢
      dsimp only at h ⊢
      rw [kvExpiry_setex_self] at h
      constructor
      · simp [get_or_create_session, kvGet_setex_self, h]
        split <;> rfl
      · intro hc
        exact Option.noConfusion hc
    | false =>
      have hfirst : get_or_create_session st t₁ u = (v, st) := by
        simp [get_or_create_session, hg, hv]
      rw [hfirst] at h ⊢
      dsimp only at h ⊢
      have hsecond : kvGet st t₂ (redis_key u) = some v :=
        kvGet_before_expiry st t₁ t₂ _ v hg h
      constructor
      · simp [get_or_create_session, hsecond, hv]
      · intro hc
        exact Option.noConfusion hc

/-- Witness for C5: an empty store, first call at time 0, second at 5. -/
theorem c5_witness :
    (get_or_create_session (get_or_create_session ⟨[]⟩ 0 "u7").2 5 "u7").1 =
      (get_or_create_session ⟨[]⟩ 0 "u7").1 ∧
    (kvGet ⟨[]⟩ 0 (redis_key "u7") = none →
      (get_or_create_session ⟨[]⟩ 0 "u7").1 = "bluefairy:" ++ "u7") :=
  c5_idempotent_and_deterministic ⟨[]⟩ 0 5 "u7" (by decide)

/-! ## C2: the archive append path does not persist -/

/-- A store already holding a conversation for session s1. -/
def c2_db0 : ConvDB :=
  ⟨[⟨"u1", some "s1", [⟨"user", "a"⟩, ⟨"assistant", "b"⟩]⟩]⟩

/-- C2 evaluated at a failing input: with a record already stored for the
session key, create_conversation returns the database unchanged (the
extend mutates a detached copy and nothing is committed), while the
returned response does contain the two appended entries; only the
no-record branch actually persists. -/
theorem c2_existing_append_not_persisted :
    (create_conversation c2_db0 "u1" "s1" "hi" "yo").1 = c2_db0 ∧
    (get_by_session_id (create_conversation c2_db0 "u1" "s1" "hi" "yo").1 "s1").map
        Conversation.messages =
      some [⟨"user", "a"⟩, ⟨"assistant", "b"⟩] ∧
    (create_conversation c2_db0 "u1" "s1" "hi" "yo").2.messages =
      [⟨"user", "a"⟩, ⟨"assistant", "b"⟩, ⟨"user", "hi"⟩, ⟨"assistant", "yo"⟩] ∧
    (get_by_session_id (create_conversation ⟨[]⟩ "u1" "s1" "hi" "yo").1 "s1").map
        Conversation.messages =
      some [⟨"user", "hi"⟩, ⟨"assistant", "yo"⟩] :=
  ⟨rfl, rfl, rfl, rfl⟩
